import Mathlib

/-!
Shallow embedding of the agentic crop advisor core
(`src/app/graph.py`, `src/app/models.py`, `src/app/tools.py`):
the merge engine, the router, the guardrail engine, the sanitizer,
the advisory construction-time validation, the weather node and the
message-compaction sites, together with proofs of the spec claims.

Python strings are embedded as Lean strings; the specific regular
expressions used by the guardrails are embedded as executable matchers
on character lists; machine floats used only for latitude/longitude are
embedded as rationals (their exact values never feed arithmetic, only
Python truthiness tests); datetimes are embedded as integer UTC seconds,
with a failed ISO parse modelled as `none`.
-/

namespace CropAdvisor

/-! ### Python string primitives -/

/-- The whitespace characters stripped by Python `str.strip()` (ASCII range). -/
def pyIsSpace (c : Char) : Bool :=
  c = ' ' || c = '\t' || c = '\n' || c = '\r' || c = '\x0b' || c = '\x0c'

def pyStripL (l : List Char) : List Char :=
  ((l.dropWhile pyIsSpace).reverse.dropWhile pyIsSpace).reverse

/-- Python `str.strip()`. -/
def pyStrip (s : String) : String := ⟨pyStripL s.data⟩

def pyLowerL (l : List Char) : List Char := l.map Char.toLower

/-- Python `str.lower()` (ASCII case folding, which covers the embedded texts). -/
def pyLower (s : String) : String := ⟨pyLowerL s.data⟩

/-- Python truthiness of an `Optional[str]`: `None` and `""` are falsy. -/
def truthyOptStr : Option String → Bool
  | none => false
  | some s => !(s == "")

/-- Python truthiness of an `Optional[float]`: `None` and `0.0` are falsy. -/
def truthyRat : Option ℚ → Bool
  | none => false
  | some x => !(x == 0)

/-- The idiom `v and v.strip()` on an `Optional[str]` field. -/
def presentNonBlank : Option String → Bool
  | none => false
  | some s => !(s == "") && !(pyStrip s == "")

/-! ### Regex fragments used by the guardrails, as executable matchers

A matcher receives the character preceding the current position
(`none` at the start of the string) and the remaining characters, so the
regex word-boundary assertion `\b` can be evaluated exactly. -/

/-- Regex word character `\w` (ASCII, which covers the embedded texts). -/
def isWordChar (c : Char) : Bool := c.isAlphanum || c = '_'

/-- A word boundary before a word character: the previous character is
absent or not a word character. -/
def nonWordBefore : Option Char → Bool
  | none => true
  | some c => !isWordChar c

/-- A word boundary after a word character: the next character is absent
or not a word character. -/
def boundaryAfter : List Char → Bool
  | [] => true
  | c :: _ => !isWordChar c

/-- Case-insensitively strip a (lowercase) literal off the front of a
string, returning the remainder on success. -/
def dropLitCI : List Char → List Char → Option (List Char)
  | [], s => some s
  | _ :: _, [] => none
  | u :: us, c :: cs => if c.toLower = u then dropLitCI us cs else none

/-- One unit alternative followed by a word boundary. -/
def unitThenBoundary (u : List Char) (s : List Char) : Bool :=
  match dropLitCI u s with
  | some rest => boundaryAfter rest
  | none => false

/-- Any of the unit alternatives followed by a word boundary. -/
def anyUnit (units : List (List Char)) (s : List Char) : Bool :=
  units.any (fun u => unitThenBoundary u s)

/-- Case-folded unit alternatives of `(ml|mL|l|L|g|gm|kg)`. -/
def dosageUnits : List (List Char) :=
  [['m', 'l'], ['l'], ['g'], ['g', 'm'], ['k', 'g']]

/-- Case-folded unit alternatives of `(l|L|liter|litre|kg)`. -/
def perUnits : List (List Char) :=
  [['l'], ['l', 'i', 't', 'e', 'r'], ['l', 'i', 't', 'r', 'e'], ['k', 'g']]

/-- Match of `\b\d+(\.\d+)?\s*(ml|mL|l|L|g|gm|kg)\b` (IGNORECASE) at the
current position. -/
def dosageAt (prev : Option Char) (s : List Char) : Bool :=
  nonWordBefore prev &&
  match s with
  | [] => false
  | c :: _ =>
    if c.isDigit then
      let r1 := s.dropWhile Char.isDigit
      let r2 :=
        match r1 with
        | '.' :: d :: r => if d.isDigit then (d :: r).dropWhile Char.isDigit else r1
        | _ => r1
      anyUnit dosageUnits (r2.dropWhile pyIsSpace)
    else false

/-- Match of `\b(per|/)\s*(l|L|liter|litre|kg)\b` (IGNORECASE) at the
current position.  For the `/` alternative the leading `\b` demands a
word character before the slash. -/
def perAt (prev : Option Char) (s : List Char) : Bool :=
  (match dropLitCI ['p', 'e', 'r'] s with
   | some rest => nonWordBefore prev && anyUnit perUnits (rest.dropWhile pyIsSpace)
   | none => false) ||
  (match s with
   | '/' :: rest =>
     (match prev with
      | some c => isWordChar c
      | none => false) && anyUnit perUnits (rest.dropWhile pyIsSpace)
   | _ => false)

/-- Match of `\bword\b` (IGNORECASE) at the current position, for a word
made of word characters. -/
def wordAt (w : List Char) (prev : Option Char) (s : List Char) : Bool :=
  nonWordBefore prev &&
  match dropLitCI w s with
  | some rest => boundaryAfter rest
  | none => false

/-- Python `re.search`: try the matcher at every position. -/
def pySearch (p : Option Char → List Char → Bool) : Option Char → List Char → Bool
  | prev, [] => p prev []
  | prev, c :: rest => p prev (c :: rest) || pySearch p (some c) rest

def containsPat (p : Option Char → List Char → Bool) (s : List Char) : Bool :=
  pySearch p none s

def mixW : List Char := ['m', 'i', 'x']
def doseW : List Char := ['d', 'o', 's', 'e']
def ppmW : List Char := ['p', 'p', 'm']

/-- The five `risky_patterns` scanned by `_guardrails`. -/
def riskyEvalHit (s : List Char) : Bool :=
  containsPat dosageAt s || containsPat perAt s ||
  containsPat (wordAt mixW) s || containsPat (wordAt doseW) s ||
  containsPat (wordAt ppmW) s

/-! ### Data model (`models.py`) -/

inductive Urgency
  | low
  | medium
  | high
deriving DecidableEq, Repr

def Urgency.rank : Urgency → Nat
  | .low => 0
  | .medium => 1
  | .high => 2

inductive Confidence
  | low
  | medium
  | high
deriving DecidableEq, Repr

structure FarmerContext where
  crop : Option String := none
  stage : String := "unknown"
  location_text : Option String := none
  lat : Option ℚ := none
  lon : Option ℚ := none
  sowing_date : Option String := none
  irrigation : Option String := none
  soil_type : Option String := none
  notes : Option String := none
deriving DecidableEq, Repr

structure Observation where
  symptoms : List String := []
  pests_seen : List String := []
  images_hint : Option String := none
  urgency : Urgency := .low
deriving DecidableEq, Repr

structure WeatherSnapshot where
  /-- Fetch time as UTC seconds; `none` models a timestamp string that
  `_parse_iso_dt` fails to parse. -/
  fetched_at : Option Int
  summary : String := ""
  alerts : List String := []
  /-- Raw daily forecast entries, abstracted as opaque items. -/
  daily : List String := []
  /-- Raw hourly forecast entries, abstracted as opaque items. -/
  hourly : List String := []
deriving DecidableEq, Repr

structure WebContext where
  /-- Fetch time as UTC seconds; `none` models an unparsable timestamp. -/
  fetched_at : Option Int
  query : String := ""
  snippets : List String := []
  urls : List String := []
deriving DecidableEq, Repr

@[ext]
structure Advisory where
  headline : String
  stage : String := "unknown"
  actions_now : List String := []
  watch_out_for : List String := []
  next_questions : List String := []
  rationale_brief : String := ""
  confidence : Confidence := .medium
  safety_notes : List String := []
  needs_human_review : Bool := false
deriving DecidableEq, Repr

structure GuardrailResult where
  ok : Bool := true
  reasons : List String := []
  needs_human_review : Bool := false
deriving DecidableEq, Repr

structure Msg where
  role : String
  content : String
deriving DecidableEq, Repr

structure GraphState where
  chat_id : String
  messages : List Msg := []
  context : FarmerContext := {}
  observation : Observation := {}
  weather : Option WeatherSnapshot := none
  web : Option WebContext := none
  advisory : Option Advisory := none
  last_node : Option String := none
  turn_count : Nat := 0
deriving DecidableEq, Repr

/-! ### Advisory construction (`Advisory` pydantic validation) -/

/-- Raw advisory data before validation, as handed to
`Advisory.model_validate`.  String-typed enum fields are carried as raw
strings and checked during parsing. -/
structure AdvisoryInput where
  headline : String
  stage : String := "unknown"
  actions_now : List String := []
  watch_out_for : List String := []
  next_questions : List String := []
  rationale_brief : String := ""
  confidence : String := "medium"
  safety_notes : List String := []
  needs_human_review : Bool := false
deriving DecidableEq, Repr

def allowedStages : List String :=
  ["unknown", "pre_sowing", "sowing", "germination", "vegetative",
   "flowering", "fruiting", "maturity", "harvest", "post_harvest"]

def parseConfidence : String → Option Confidence
  | "low" => some .low
  | "medium" => some .medium
  | "high" => some .high
  | _ => none

/-- The `_limit_*` field validators: drop empty/whitespace entries,
strip the rest, truncate to the cap. -/
def cleanList (cap : Nat) (xs : List String) : List String :=
  ((xs.filter (fun x => !(x == "") && !(pyStrip x == ""))).map pyStrip).take cap

/-- `safe_parse_advisory` / `Advisory.model_validate`: `none` models a
pydantic `ValidationError`. -/
def safeParseAdvisory (inp : AdvisoryInput) : Option Advisory :=
  match parseConfidence inp.confidence with
  | none => none
  | some conf =>
    if 3 ≤ inp.headline.length && inp.headline.length ≤ 120 &&
       inp.rationale_brief.length ≤ 600 && allowedStages.contains inp.stage then
      some { headline := inp.headline
             stage := inp.stage
             actions_now := cleanList 7 inp.actions_now
             watch_out_for := cleanList 5 inp.watch_out_for
             next_questions := cleanList 3 inp.next_questions
             rationale_brief := inp.rationale_brief
             confidence := conf
             safety_notes := inp.safety_notes
             needs_human_review := inp.needs_human_review }
    else none

/-! ### Freshness policy and router (`graph.py`) -/

def isWeatherStale (now : Int) (st : GraphState) : Bool :=
  match st.weather with
  | none => true
  | some w =>
    match w.fetched_at with
    | none => true
    | some t => now - t > 6 * 3600

def isWebStale (now : Int) (st : GraphState) : Bool :=
  match st.web with
  | none => true
  | some w =>
    match w.fetched_at with
    | none => true
    | some t => now - t > 24 * 3600

/-- `_route`. -/
def route (now : Int) (st : GraphState) : String :=
  let c := st.context
  if !(truthyRat c.lat && truthyRat c.lon) && !(presentNonBlank c.location_text) then
    "ask"
  else if !(presentNonBlank c.crop) then "ask"
  else if c.stage = "unknown" then "ask"
  else if truthyRat c.lat && truthyRat c.lon && isWeatherStale now st then "weather"
  else if !st.observation.symptoms.isEmpty && isWebStale now st then "web"
  else "advice"

/-! ### Merge engine (`_merge_context`, `_merge_observation`) -/

/-- The partial-update record extracted by the intake step. -/
structure IntakeExtraction where
  crop : Option String := none
  stage : Option String := none
  location_text : Option String := none
  sowing_date : Option String := none
  irrigation : Option String := none
  soil_type : Option String := none
  notes : Option String := none
  symptoms : List String := []
  pests_seen : List String := []
  urgency : Option String := none
deriving DecidableEq, Repr

/-- Stage normalization in `_merge_context`: strip, lower, and map any
value outside the fixed enumeration to `unknown`. -/
def normStage (s : String) : String :=
  let t := pyLower (pyStrip s)
  if allowedStages.contains t then t else "unknown"

/-- One plain string field of `_merge_context`: overwrite with the
stripped value when present and non-blank. -/
def mergeField (old upd : Option String) : Option String :=
  if presentNonBlank upd then some (pyStrip (upd.getD "")) else old

def mergeContext (old : FarmerContext) (upd : IntakeExtraction) : FarmerContext :=
  { old with
    crop :=
      if presentNonBlank upd.crop then some (pyLower (pyStrip (upd.crop.getD "")))
      else old.crop
    stage :=
      if presentNonBlank upd.stage then normStage (upd.stage.getD "") else old.stage
    location_text := mergeField old.location_text upd.location_text
    sowing_date := mergeField old.sowing_date upd.sowing_date
    irrigation := mergeField old.irrigation upd.irrigation
    soil_type := mergeField old.soil_type upd.soil_type
    notes := mergeField old.notes upd.notes }

/-- One step of the symptom/pest accumulation loop: append the stripped
entry unless blank or already present case-insensitively. -/
def addUnique (acc : List String) (raw : String) : List String :=
  let s := pyStrip raw
  if !(s == "") && !((acc.map pyLower).contains (pyLower s)) then acc ++ [s] else acc

def parseUrgency : String → Option Urgency
  | "low" => some .low
  | "medium" => some .medium
  | "high" => some .high
  | _ => none

def mergeObservation (old : Observation) (upd : IntakeExtraction) : Observation :=
  let urgency :=
    match upd.urgency with
    | none => old.urgency
    | some uStr =>
      if uStr == "" then old.urgency
      else
        match parseUrgency (pyLower (pyStrip uStr)) with
        | some u => if old.urgency.rank < u.rank then u else old.urgency
        | none => old.urgency
  { symptoms := upd.symptoms.foldl addUnique old.symptoms
    pests_seen := upd.pests_seen.foldl addUnique old.pests_seen
    urgency := urgency }

/-! ### Guardrail engine (`_guardrails`, `_sanitize_advisory`) -/

/-- Python `" ".join`. -/
def pyJoin (sep : List Char) : List (List Char) → List Char
  | [] => []
  | [x] => x
  | x :: y :: xs => x ++ sep ++ pyJoin sep (y :: xs)

/-- The scanned text of `_guardrails`: headline, action items and watch
items joined by spaces, lowercased. -/
def joinedText (a : Advisory) : List Char :=
  pyLowerL (pyJoin [' '] ((a.headline :: (a.actions_now ++ a.watch_out_for)).map String.data))

def dosageReason : String := "Contains potentially unsafe dosage/mixing-style details."
def urgencyReason : String := "High urgency reported; recommend expert verification."
def alertsReason : String := "Weather alerts present; recommend extra caution."

def urgencyHighB (st : GraphState) : Bool :=
  match st.observation.urgency with
  | .high => true
  | _ => false

def alertsPresentB (st : GraphState) : Bool :=
  match st.weather with
  | some w => !w.alerts.isEmpty
  | none => false

/-- `_guardrails`. -/
def guardrails (a : Advisory) (st : GraphState) : GuardrailResult :=
  let risky := riskyEvalHit (joinedText a)
  let urg := urgencyHighB st
  let alerts := alertsPresentB st
  { ok := !(risky || urg || alerts)
    reasons :=
      (if risky then [dosageReason] else []) ++
      (if urg then [urgencyReason] else []) ++
      (if alerts then [alertsReason] else [])
    needs_human_review := risky || urg || alerts }

/-- `is_risky_line` inside `_sanitize_advisory`: the dosage pattern or
the literal words mix/dose/ppm, case-insensitively.  Note that the
`(per|/)` unit pattern of `_guardrails` is not part of this check. -/
def isRiskyLine (line : String) : Bool :=
  if line == "" then false
  else
    containsPat dosageAt line.data || containsPat (wordAt mixW) line.data ||
    containsPat (wordAt doseW) line.data || containsPat (wordAt ppmW) line.data

def fallbackAction : String :=
  "Consult a local agriculture officer/extension worker for treatment options."

def sanitizeDisclaimer : String :=
  "Avoid chemical dosage/mixing without local expert guidance."

/-- `_sanitize_advisory`. -/
def sanitizeAdvisory (a : Advisory) (g : GuardrailResult) : Advisory :=
  if !g.needs_human_review then a
  else
    let safe0 := a.actions_now.filter (fun l => !isRiskyLine l)
    let safe := if safe0.isEmpty then [fallbackAction] else safe0
    let notes := a.safety_notes ++ [sanitizeDisclaimer] ++ g.reasons.take 2
    { a with
      actions_now := safe.take 7
      safety_notes := notes.take 6
      needs_human_review := true
      confidence := .low }

/-! ### Message mutations (`GraphState` methods, `run_turn`, node actions) -/

def addUserMsg (st : GraphState) (text : String) : GraphState :=
  { st with messages := st.messages ++ [⟨"user", text⟩] }

def addAssistantMsg (st : GraphState) (text : String) : GraphState :=
  { st with messages := st.messages ++ [⟨"assistant", text⟩] }

/-- `compact_messages`: keep the most recent 16 entries. -/
def compactMessages (st : GraphState) : GraphState :=
  if st.messages.length > 16 then
    { st with messages := st.messages.drop (st.messages.length - 16) }
  else st

/-- The state mutations of `run_turn` before the graph is invoked:
append the user message, bump the turn counter, compact. -/
def runTurnStart (st : GraphState) (userText : String) : GraphState :=
  compactMessages { addUserMsg st userText with turn_count := st.turn_count + 1 }

def askLocationMsg : String :=
  "To guide you accurately, share your location:\n• Village/City + District/State, OR\n• Coordinates like: 19.07,72.87"

def askCropMsg : String :=
  "Which crop are you growing? (e.g., cotton, wheat, tomato)"

def askStageMsg : String :=
  "Which crop stage are you in?\nOptions: sowing, germination, vegetative, flowering, fruiting, maturity, harvest"

def askSymptomMsg : String :=
  "Can you share 1–2 clear symptoms and how many days you’ve noticed them? (Also mention irrigation frequency.)"

def askGenericMsg : String :=
  "Share any recent changes (rain/irrigation/fertilizer) and I’ll update your next actions."

/-- `_ask_message_for_missing`. -/
def askMessageForMissing (st : GraphState) : String :=
  let c := st.context
  if (!(truthyRat c.lat) || !(truthyRat c.lon)) && !(presentNonBlank c.location_text) then
    askLocationMsg
  else if !(presentNonBlank c.crop) then askCropMsg
  else if c.stage = "unknown" then askStageMsg
  else if !st.observation.symptoms.isEmpty && st.web.isNone then askSymptomMsg
  else askGenericMsg

/-- `ask_node`. -/
def askNode (st : GraphState) : GraphState :=
  let s := compactMessages (addAssistantMsg st (askMessageForMissing st))
  { s with last_node := some "ask", advisory := none }

def adviceFallbackMsg : String :=
  "I couldn’t generate a reliable plan from the current details.\nPlease share crop + stage + location (village/district) and 1–2 symptoms."

/-- The synthesis-failure path of `advice_node`: append the fallback
message without compacting, clear the advisory. -/
def adviceNodeFallback (st : GraphState) : GraphState :=
  { addAssistantMsg st adviceFallbackMsg with
    advisory := none
    last_node := some "advice" }

/-- The assistant summary appended by `advice_node` on success. -/
def summaryMsg (adv2 : Advisory) : String :=
  String.intercalate "\n"
    ([adv2.headline] ++
     (if !adv2.actions_now.isEmpty then
        ["Actions: " ++ String.intercalate "; " (adv2.actions_now.take 4)]
      else []) ++
     (if !adv2.watch_out_for.isEmpty then
        ["Watch: " ++ String.intercalate "; " (adv2.watch_out_for.take 3)]
      else []) ++
     (if !adv2.next_questions.isEmpty then
        ["Next: " ++ String.intercalate "; " (adv2.next_questions.take 2)]
      else []) ++
     (if adv2.needs_human_review then ["Note: Recommend local expert review."] else []))

/-- The success path of `advice_node`, after the synthesizer returned a
validated advisory `adv`: guardrails, sanitize, append summary, compact. -/
def adviceNodeSuccess (st : GraphState) (adv : Advisory) : GraphState :=
  let g := guardrails adv st
  let adv2 := sanitizeAdvisory adv g
  let s := compactMessages (addAssistantMsg st (summaryMsg adv2))
  { s with advisory := some adv2, last_node := some "advice" }

/-! ### Weather node (`weather_node`), with tool outcomes as oracles -/

/-- `weather_node`.  `geo` is the outcome of `tools.geocode` (used only
when coordinates are not truthy and location text is truthy) and `wx`
the outcome of `tools.weather`; `Except.error` models a `ToolError`. -/
def weatherNode (st : GraphState)
    (geo : Except Unit (Option ℚ × Option ℚ × Option String))
    (wx : Except Unit WeatherSnapshot) : GraphState :=
  let c := st.context
  let c1 :=
    if !(truthyRat c.lat && truthyRat c.lon) then
      if truthyOptStr c.location_text then
        match geo with
        | .error _ => c
        | .ok (latO, lonO, resolved) =>
          match latO, lonO with
          | some lat, some lon =>
            let c2 := { c with lat := some lat, lon := some lon }
            if truthyOptStr resolved && !(truthyOptStr c2.location_text) then
              { c2 with location_text := resolved }
            else c2
          | _, _ => c
      else c
    else c
  if !(truthyRat c1.lat && truthyRat c1.lon) then
    { st with context := c1, weather := none, last_node := some "weather" }
  else
    match wx with
    | .ok snap => { st with context := c1, weather := some snap, last_node := some "weather" }
    | .error _ => { st with context := c1, last_node := some "weather" }

/-! ### Auxiliary definition for search lemmas -/

/-- The character preceding the position right after `xs`, when scanning
started with preceding character `prev`. -/
def prevAfter (prev : Option Char) (xs : List Char) : Option Char :=
  match xs.getLast? with
  | some c => some c
  | none => prev

/-! ### Concrete sample data used by witnesses and counterexamples -/

def emptyState : GraphState := { chat_id := "s" }

def c1PerLine : String := "Spray neem solution per litre of water"

def c1PerAdv : Advisory :=
  { headline := "Plan for the week"
    actions_now := [c1PerLine, "Scout the field daily"] }

def c1DoseAdv : Advisory :=
  { headline := "Weekly plan", actions_now := ["Apply 2.5 ml per litre"] }

def c1Guard : GuardrailResult :=
  { ok := false, reasons := [dosageReason], needs_human_review := true }

def c2ZeroCtx : FarmerContext :=
  { crop := some ("wheat"), stage := "vegetative"
    location_text := some ("Atlantic shore"), lat := some 0, lon := some 73 }

def c2ZeroState : GraphState := { chat_id := "c2", context := c2ZeroCtx }

def c2ZeroNoTextState : GraphState :=
  { chat_id := "c2b", context := { c2ZeroCtx with location_text := none } }

def c2OkState : GraphState :=
  { chat_id := "c2c", context := { c2ZeroCtx with lat := some 19 } }

def c3MixAdv : Advisory := { headline := "Mix compost into beds" }

def c3BenignAdv : Advisory := { headline := "Scout the field" }

def c3HighState : GraphState :=
  { chat_id := "c3", observation := { urgency := .high } }

def c3AlertSnap : WeatherSnapshot :=
  { fetched_at := some 0, alerts := ["Thunderstorm"] }

def c3AlertState : GraphState := { chat_id := "c3a", weather := some c3AlertSnap }

def c4Upd : IntakeExtraction := { urgency := some (" High ") }

def c6Input : AdvisoryInput :=
  { headline := "Weekly crop plan"
    safety_notes := ["n1", "n2", "n3", "n4", "n5", "n6", "n7"] }

def c6Output : Advisory :=
  { headline := "Weekly crop plan"
    safety_notes := ["n1", "n2", "n3", "n4", "n5", "n6", "n7"] }

def c6GoodInput : AdvisoryInput :=
  { headline := "Irrigate in the evening"
    actions_now := ["Check soil moisture", "  ", "Mulch the beds"]
    watch_out_for := ["Leaf curl"]
    next_questions := [""]
    rationale_brief := "Evening irrigation reduces evaporation." }

def c6GoodOutput : Advisory :=
  { headline := "Irrigate in the evening"
    actions_now := ["Check soil moisture", "Mulch the beds"]
    watch_out_for := ["Leaf curl"]
    next_questions := []
    rationale_brief := "Evening irrigation reduces evaporation." }

def c7Adv : Advisory := { headline := "Inspect the field" }

def c7Guard : GuardrailResult :=
  { ok := false, reasons := [urgencyReason], needs_human_review := true }

def c7BenignGuard : GuardrailResult := {}

def c7NotesAdv : Advisory :=
  { headline := "Inspect the field today"
    safety_notes := ["s1", "s2", "s3", "s4", "s5", "s6"] }

def c8PrevSnap : WeatherSnapshot := { fetched_at := some 0 }

def c8GeoState : GraphState :=
  { chat_id := "c8", context := { location_text := some ("Pune") }
    weather := some c8PrevSnap }

def c8CoordState : GraphState :=
  { chat_id := "c8b"
    context := { crop := some ("wheat"), stage := "vegetative"
                 lat := some 19, lon := some 73 }
    weather := some c8PrevSnap }

def c8NewSnap : WeatherSnapshot := { fetched_at := some 5000, summary := "Clear" }

def c9FullState : GraphState :=
  { chat_id := "c9", messages := List.replicate 16 ⟨"user", "hi"⟩ }

def c9SmallState : GraphState := { chat_id := "c9w" }

def c9Adv : Advisory := { headline := "Scout the field" }

/-! ### Helper lemmas -/

theorem pySearch_here (p : Option Char → List Char → Bool) (prev : Option Char)
    (s : List Char) (h : p prev s = true) : pySearch p prev s = true := by
  cases s with
  | nil => simpa [pySearch] using h
  | cons c rest => simp [pySearch, h]

theorem prevAfter_cons (prev : Option Char) (c : Char) (xs : List Char) :
    prevAfter prev (c :: xs) = prevAfter (some c) xs := by
  cases xs with
  | nil => simp [prevAfter]
  | cons d ys =>
    cases hg : (d :: ys).getLast? with
    | none =>
      rw [List.getLast?_eq_none_iff] at hg
      cases hg
    | some e => simp [prevAfter, List.getLast?_cons_cons, hg]

theorem pySearch_append (p : Option Char → List Char → Bool) :
    ∀ (xs : List Char) (prev : Option Char) (ys : List Char),
      pySearch p (prevAfter prev xs) ys = true → pySearch p prev (xs ++ ys) = true := by
  intro xs
  induction xs with
  | nil => intro prev ys h; simpa [prevAfter] using h
  | cons c xs ih =>
    intro prev ys h
    rw [prevAfter_cons] at h
    have h2 := ih (some c) ys h
    simp [pySearch, h2]

theorem pyJoin_mem_split (x : List Char) (h0 : List Char) (l : List (List Char))
    (hx : x ∈ l) : ∃ s t, pyJoin [' '] (h0 :: l) = s ++ ' ' :: (x ++ t) := by
  induction l generalizing h0 with
  | nil => cases hx
  | cons y l ih =>
    rw [List.mem_cons] at hx
    rcases hx with rfl | hx
    · cases l with
      | nil => exact ⟨h0, [], by simp [pyJoin]⟩
      | cons z l2 => exact ⟨h0, ' ' :: pyJoin [' '] (z :: l2), by simp [pyJoin]⟩
    · obtain ⟨s, t, hst⟩ := ih y hx
      refine ⟨h0 ++ ' ' :: s, t, ?_⟩
      have hy : pyJoin [' '] (h0 :: y :: l) = h0 ++ [' '] ++ pyJoin [' '] (y :: l) := rfl
      rw [hy, hst]
      simp [List.append_assoc]

theorem lower_space : Char.toLower ' ' = ' ' := rfl

theorem dosage_at_line (t : List Char) :
    dosageAt (some ' ') (("2.5 ml per litre").data ++ t) = true := rfl

theorem lower_dose_line :
    pyLowerL (("Apply 2.5 ml per litre").data) =
      ("apply ").data ++ ("2.5 ml per litre").data := by decide

theorem mem_actions_risky (a : Advisory)
    (h : ("Apply 2.5 ml per litre") ∈ a.actions_now) :
    riskyEvalHit (joinedText a) = true := by
  have hmem : ("Apply 2.5 ml per litre").data ∈
      ((a.actions_now ++ a.watch_out_for).map String.data) :=
    List.mem_map_of_mem _ (List.mem_append_left _ h)
  obtain ⟨s, t, hst⟩ := pyJoin_mem_split _ a.headline.data _ hmem
  have hj : joinedText a =
      (pyLowerL s ++ ' ' :: ("apply ").data) ++
        (("2.5 ml per litre").data ++ pyLowerL t) := by
    have h1 : joinedText a =
        pyLowerL (pyJoin [' ']
          (a.headline.data :: (a.actions_now ++ a.watch_out_for).map String.data)) := rfl
    rw [h1, hst]
    simp [pyLowerL, lower_space, lower_dose_line, List.append_assoc]
  have key : containsPat dosageAt (joinedText a) = true := by
    rw [hj]
    apply pySearch_append
    have hg : (pyLowerL s ++ ' ' :: ("apply ").data).getLast? = some ' ' := by
      rw [List.getLast?_append_cons]
      decide
    have hpa : prevAfter none (pyLowerL s ++ ' ' :: ("apply ").data) = some ' ' := by
      simp [prevAfter, hg]
    rw [hpa]
    exact pySearch_here _ _ _ (dosage_at_line (pyLowerL t))
  simp [riskyEvalHit, key]

theorem guardrails_needs_eq (a : Advisory) (st : GraphState) :
    (guardrails a st).needs_human_review =
      (riskyEvalHit (joinedText a) || urgencyHighB st || alertsPresentB st) := rfl

/-! ### C10 -/

/-- C10: every GuardrailResult produced by evaluate satisfies
ok = not needs_human_review, and its reasons list is non-empty exactly
when needs_human_review is true. -/
theorem C10_guardrail_output_invariant (a : Advisory) (st : GraphState) :
    (guardrails a st).ok = !(guardrails a st).needs_human_review ∧
    (guardrails a st).reasons.isEmpty = !(guardrails a st).needs_human_review := by
  cases hr : riskyEvalHit (joinedText a) <;>
    cases hu : urgencyHighB st <;>
      cases ha : alertsPresentB st <;>
        simp [guardrails, hr, hu, ha]

/-! ### C2 -/

/-- C2: evaluation of the router at in-range coordinates with lat = 0 and a
stale (absent) weather snapshot: the code yields advice (or ask when
location text is also missing), never weather, although the same state
with a non-zero latitude yields weather.  This exhibits the Python float
truthiness slip in rules 1 and 4 of the router. -/
theorem C2_route_zero_latitude_eval :
    route 0 c2ZeroState = "advice" ∧
    route 0 c2ZeroNoTextState = "ask" ∧
    route 0 c2OkState = "weather" := by decide

/-! ### C3 -/

/-- C3: evaluate escalates whenever the joined headline/actions/watch
text matches the dosage pattern or the literal words mix/dose/ppm, or the
observation urgency is high, or the weather snapshot carries alerts. -/
theorem C3_guardrails_escalation (a : Advisory) (st : GraphState) :
    (containsPat dosageAt (joinedText a) = true ∨
       containsPat (wordAt mixW) (joinedText a) = true ∨
       containsPat (wordAt doseW) (joinedText a) = true ∨
       containsPat (wordAt ppmW) (joinedText a) = true →
      (guardrails a st).needs_human_review = true) ∧
    (st.observation.urgency = Urgency.high →
      (guardrails a st).needs_human_review = true) ∧
    (∀ w, st.weather = some w → w.alerts ≠ [] →
      (guardrails a st).needs_human_review = true) := by
  refine ⟨?_, ?_, ?_⟩
  · intro hd
    rw [guardrails_needs_eq]
    have : riskyEvalHit (joinedText a) = true := by
      rcases hd with h | h | h | h <;> simp [riskyEvalHit, h]
    simp [this]
  · intro hu
    rw [guardrails_needs_eq]
    have : urgencyHighB st = true := by simp [urgencyHighB, hu]
    simp [this]
  · intro w hw ha
    rw [guardrails_needs_eq]
    have : alertsPresentB st = true := by
      simp [alertsPresentB, hw]
      exact ha
    simp [this]

/-- Witness for C3 at concrete inputs: a mix-word advisory, a benign
advisory with high urgency, and a benign advisory with weather alerts. -/
theorem C3_guardrails_escalation_witness :
    (guardrails c3MixAdv emptyState).needs_human_review = true ∧
    c3HighState.observation.urgency = Urgency.high ∧
    (guardrails c3BenignAdv c3HighState).needs_human_review = true ∧
    c3AlertState.weather = some c3AlertSnap ∧
    c3AlertSnap.alerts ≠ [] ∧
    (guardrails c3BenignAdv c3AlertState).needs_human_review = true :=
  ⟨(C3_guardrails_escalation c3MixAdv emptyState).1 (Or.inr (Or.inl (by decide))),
   by decide,
   (C3_guardrails_escalation c3BenignAdv c3HighState).2.1 (by decide),
   rfl,
   by decide,
   (C3_guardrails_escalation c3BenignAdv c3AlertState).2.2 c3AlertSnap rfl (by decide)⟩

/-! ### C4 -/

/-- C4: the urgency produced by mergeObservation never decreases, and a
valid supplied urgency yields the maximum of old and new under
low < medium < high. -/
theorem C4_merge_urgency_monotone (old : Observation) (upd : IntakeExtraction) :
    old.urgency.rank ≤ (mergeObservation old upd).urgency.rank ∧
    (∀ s u, upd.urgency = some s → s ≠ "" →
      parseUrgency (pyLower (pyStrip s)) = some u →
      (mergeObservation old upd).urgency =
        if old.urgency.rank < u.rank then u else old.urgency) := by
  constructor
  · cases hu : upd.urgency with
    | none => simp [mergeObservation, hu]
    | some uStr =>
      by_cases he : uStr = ""
      · simp [mergeObservation, hu, he]
      · cases hp : parseUrgency (pyLower (pyStrip uStr)) with
        | none => simp [mergeObservation, hu, he, hp]
        | some u =>
          simp only [mergeObservation, hu, he, hp]
          by_cases hlt : old.urgency.rank < u.rank
          · simp [he, hlt]
            omega
          · simp [he, hlt]
  · intro s u hs hne hp
    simp [mergeObservation, hs, hne, hp]

/-- Witness for C4: merging urgency " High " into a default (low)
observation yields high. -/
theorem C4_merge_urgency_monotone_witness :
    c4Upd.urgency = some (" High ") ∧
    (" High ") ≠ "" ∧
    parseUrgency (pyLower (pyStrip (" High "))) = some Urgency.high ∧
    (mergeObservation {} c4Upd).urgency =
      (if ({} : Observation).urgency.rank < Urgency.high.rank then Urgency.high
       else ({} : Observation).urgency) :=
  ⟨rfl, by decide, by decide,
   (C4_merge_urgency_monotone {} c4Upd).2 (" High ") Urgency.high rfl
     (by decide) (by decide)⟩

/-! ### C5 -/

/-- C5: mergeContext overwrites exactly the fields whose update value is
present and non-blank (crop lower-cased, stage normalized), leaves every
other field at its old value, never touches coordinates, and never clears
a populated field. -/
theorem C5_merge_context_frame (old : FarmerContext) (upd : IntakeExtraction) :
    ((mergeContext old upd).crop =
      if presentNonBlank upd.crop then some (pyLower (pyStrip (upd.crop.getD "")))
      else old.crop) ∧
    ((mergeContext old upd).stage =
      if presentNonBlank upd.stage then normStage (upd.stage.getD "") else old.stage) ∧
    ((mergeContext old upd).location_text =
      if presentNonBlank upd.location_text then
        some (pyStrip (upd.location_text.getD ""))
      else old.location_text) ∧
    ((mergeContext old upd).sowing_date =
      if presentNonBlank upd.sowing_date then some (pyStrip (upd.sowing_date.getD ""))
      else old.sowing_date) ∧
    ((mergeContext old upd).irrigation =
      if presentNonBlank upd.irrigation then some (pyStrip (upd.irrigation.getD ""))
      else old.irrigation) ∧
    ((mergeContext old upd).soil_type =
      if presentNonBlank upd.soil_type then some (pyStrip (upd.soil_type.getD ""))
      else old.soil_type) ∧
    ((mergeContext old upd).notes =
      if presentNonBlank upd.notes then some (pyStrip (upd.notes.getD ""))
      else old.notes) ∧
    ((mergeContext old upd).lat = old.lat) ∧
    ((mergeContext old upd).lon = old.lon) ∧
    (old.crop.isSome ≤ (mergeContext old upd).crop.isSome) ∧
    (old.location_text.isSome ≤ (mergeContext old upd).location_text.isSome) ∧
    (old.sowing_date.isSome ≤ (mergeContext old upd).sowing_date.isSome) ∧
    (old.irrigation.isSome ≤ (mergeContext old upd).irrigation.isSome) ∧
    (old.soil_type.isSome ≤ (mergeContext old upd).soil_type.isSome) ∧
    (old.notes.isSome ≤ (mergeContext old upd).notes.isSome) := by
  refine ⟨rfl, rfl, rfl, rfl, rfl, rfl, rfl, rfl, rfl, ?_, ?_, ?_, ?_, ?_, ?_⟩
  · cases h : presentNonBlank upd.crop <;> simp [mergeContext, mergeField, h]
  · cases h : presentNonBlank upd.location_text <;> simp [mergeContext, mergeField, h]
  · cases h : presentNonBlank upd.sowing_date <;> simp [mergeContext, mergeField, h]
  · cases h : presentNonBlank upd.irrigation <;> simp [mergeContext, mergeField, h]
  · cases h : presentNonBlank upd.soil_type <;> simp [mergeContext, mergeField, h]
  · cases h : presentNonBlank upd.notes <;> simp [mergeContext, mergeField, h]

/-! ### Sanitizer lemmas -/

theorem sanitize_eq_of_not_needs (a : Advisory) (g : GuardrailResult)
    (h : g.needs_human_review = false) : sanitizeAdvisory a g = a := by
  simp [sanitizeAdvisory, h]

theorem sanitize_actions_eq (a : Advisory) (g : GuardrailResult)
    (h : g.needs_human_review = true) :
    (sanitizeAdvisory a g).actions_now =
      (if (a.actions_now.filter (fun l => !isRiskyLine l)).isEmpty then [fallbackAction]
       else a.actions_now.filter (fun l => !isRiskyLine l)).take 7 := by
  simp [sanitizeAdvisory, h]

theorem sanitize_notes_eq (a : Advisory) (g : GuardrailResult)
    (h : g.needs_human_review = true) :
    (sanitizeAdvisory a g).safety_notes =
      (a.safety_notes ++ [sanitizeDisclaimer] ++ g.reasons.take 2).take 6 := by
  simp [sanitizeAdvisory, h]

theorem sanitize_needs_true (a : Advisory) (g : GuardrailResult)
    (h : g.needs_human_review = true) :
    (sanitizeAdvisory a g).needs_human_review = true := by
  simp [sanitizeAdvisory, h]

theorem sanitize_conf_low (a : Advisory) (g : GuardrailResult)
    (h : g.needs_human_review = true) :
    (sanitizeAdvisory a g).confidence = Confidence.low := by
  simp [sanitizeAdvisory, h]

theorem sanitize_headline (a : Advisory) (g : GuardrailResult) :
    (sanitizeAdvisory a g).headline = a.headline := by
  cases h : g.needs_human_review <;> simp [sanitizeAdvisory, h]

theorem sanitize_stage (a : Advisory) (g : GuardrailResult) :
    (sanitizeAdvisory a g).stage = a.stage := by
  cases h : g.needs_human_review <;> simp [sanitizeAdvisory, h]

theorem sanitize_watch (a : Advisory) (g : GuardrailResult) :
    (sanitizeAdvisory a g).watch_out_for = a.watch_out_for := by
  cases h : g.needs_human_review <;> simp [sanitizeAdvisory, h]

theorem sanitize_questions (a : Advisory) (g : GuardrailResult) :
    (sanitizeAdvisory a g).next_questions = a.next_questions := by
  cases h : g.needs_human_review <;> simp [sanitizeAdvisory, h]

theorem sanitize_rationale (a : Advisory) (g : GuardrailResult) :
    (sanitizeAdvisory a g).rationale_brief = a.rationale_brief := by
  cases h : g.needs_human_review <;> simp [sanitizeAdvisory, h]

theorem sanitize_actions_not_risky (a : Advisory) (g : GuardrailResult)
    (h : g.needs_human_review = true) :
    ∀ l ∈ (sanitizeAdvisory a g).actions_now, isRiskyLine l = false := by
  intro l hl
  rw [sanitize_actions_eq a g h] at hl
  have hl2 := List.take_subset 7 _ hl
  by_cases hf : (a.actions_now.filter (fun l => !isRiskyLine l)).isEmpty = true
  · rw [if_pos hf] at hl2
    simp at hl2
    subst hl2
    decide
  · rw [if_neg hf] at hl2
    have hmem := (List.mem_filter.mp hl2).2
    simpa using hmem

theorem sanitize_actions_ne_nil (a : Advisory) (g : GuardrailResult)
    (h : g.needs_human_review = true) :
    (sanitizeAdvisory a g).actions_now ≠ [] := by
  rw [sanitize_actions_eq a g h]
  by_cases hf : (a.actions_now.filter (fun l => !isRiskyLine l)).isEmpty = true
  · rw [if_pos hf]
    decide
  · rw [if_neg hf]
    have hne : a.actions_now.filter (fun l => !isRiskyLine l) ≠ [] := by
      intro he
      apply hf
      simp [he]
    obtain ⟨x, xs, hxx⟩ := List.exists_cons_of_ne_nil hne
    rw [hxx]
    simp

theorem not_risky_no_dosage (l : String) (h : isRiskyLine l = false) :
    containsPat dosageAt l.data = false := by
  by_cases hl : l = ""
  · subst hl
    decide
  · have hb : (l == "") = false := by simp [hl]
    simp only [isRiskyLine, hb, Bool.false_eq_true, if_false, Bool.or_eq_false_iff] at h
    exact h.1.1.1

/-! ### C1 -/

/-- C1 (amended): for a flagged guardrail result, sanitize removes every
action line matching the sanitizer risky pattern (the dosage-number
pattern or the literal words mix/dose/ppm), substitutes the safe fallback
action when none remain, forces the human-review flag and low confidence;
and an Advisory whose actions include "Apply 2.5 ml per litre" is flagged
by evaluate and its sanitized form has no action line matching the dosage
pattern. -/
theorem C1_sanitize_flagged_behaviour (a : Advisory) (g : GuardrailResult)
    (st : GraphState) (hg : g.needs_human_review = true) :
    (∀ l ∈ (sanitizeAdvisory a g).actions_now, isRiskyLine l = false) ∧
    (sanitizeAdvisory a g).actions_now ≠ [] ∧
    (sanitizeAdvisory a g).needs_human_review = true ∧
    (sanitizeAdvisory a g).confidence = Confidence.low ∧
    (("Apply 2.5 ml per litre") ∈ a.actions_now →
      (guardrails a st).needs_human_review = true ∧
      ∀ l ∈ (sanitizeAdvisory a (guardrails a st)).actions_now,
        containsPat dosageAt l.data = false) := by
  refine ⟨sanitize_actions_not_risky a g hg, sanitize_actions_ne_nil a g hg,
    sanitize_needs_true a g hg, sanitize_conf_low a g hg, ?_⟩
  intro hmem
  have hrisky := mem_actions_risky a hmem
  have hneeds : (guardrails a st).needs_human_review = true := by
    rw [guardrails_needs_eq]
    simp [hrisky]
  exact ⟨hneeds, fun l hl => not_risky_no_dosage l
    (sanitize_actions_not_risky a _ hneeds l hl)⟩

/-- C1 counterexample: an action line matching only the per-unit risky
pattern of evaluate is kept verbatim by sanitize, so sanitize does not
remove every action line matching the patterns evaluate scans for. -/
theorem C1_sanitize_per_pattern_counterexample :
    (guardrails c1PerAdv emptyState).needs_human_review = true ∧
    riskyEvalHit (pyLowerL c1PerLine.data) = true ∧
    containsPat perAt (pyLowerL c1PerLine.data) = true ∧
    c1PerLine ∈ (sanitizeAdvisory c1PerAdv (guardrails c1PerAdv emptyState)).actions_now :=
  ⟨by decide, by decide, by decide, by decide⟩

/-- Witness for C1 at a concrete flagged advisory whose only action is a
dosage instruction. -/
theorem C1_sanitize_flagged_behaviour_witness :
    c1Guard.needs_human_review = true ∧
    isRiskyLine fallbackAction = false ∧
    fallbackAction ∈ (sanitizeAdvisory c1DoseAdv c1Guard).actions_now ∧
    (sanitizeAdvisory c1DoseAdv c1Guard).actions_now ≠ [] ∧
    (sanitizeAdvisory c1DoseAdv c1Guard).needs_human_review = true ∧
    (sanitizeAdvisory c1DoseAdv c1Guard).confidence = Confidence.low ∧
    (("Apply 2.5 ml per litre") ∈ c1DoseAdv.actions_now) ∧
    (guardrails c1DoseAdv emptyState).needs_human_review = true ∧
    containsPat dosageAt fallbackAction.data = false :=
  ⟨by decide,
   (C1_sanitize_flagged_behaviour c1DoseAdv c1Guard emptyState (by decide)).1
     fallbackAction (by decide),
   by decide,
   (C1_sanitize_flagged_behaviour c1DoseAdv c1Guard emptyState (by decide)).2.1,
   (C1_sanitize_flagged_behaviour c1DoseAdv c1Guard emptyState (by decide)).2.2.1,
   (C1_sanitize_flagged_behaviour c1DoseAdv c1Guard emptyState (by decide)).2.2.2.1,
   by decide,
   ((C1_sanitize_flagged_behaviour c1DoseAdv c1Guard emptyState (by decide)).2.2.2.2
     (by decide)).1,
   ((C1_sanitize_flagged_behaviour c1DoseAdv c1Guard emptyState (by decide)).2.2.2.2
     (by decide)).2 fallbackAction (by decide)⟩

/-! ### C6 -/

theorem cleanList_length_le (cap : Nat) (xs : List String) :
    (cleanList cap xs).length ≤ cap :=
  List.length_take_le cap _

theorem cleanList_mem_ne (cap : Nat) (xs : List String) :
    ∀ x ∈ cleanList cap xs, x ≠ "" := by
  intro x hx
  have hx2 := List.take_subset cap _ hx
  obtain ⟨y, hy, rfl⟩ := List.mem_map.mp hx2
  have hfy := (List.mem_filter.mp hy).2
  simp at hfy
  exact hfy.2

/-- C6 (amended): every successfully constructed Advisory satisfies the
caps on actions (7), watch items (5) and follow-up questions (3), those
three list fields contain no empty entries, the headline is 3 to 120
characters and the rationale at most 600; safety notes are not capped or
cleaned at construction time. -/
theorem C6_advisory_construction_bounds (inp : AdvisoryInput) (a : Advisory)
    (h : safeParseAdvisory inp = some a) :
    a.actions_now.length ≤ 7 ∧ a.watch_out_for.length ≤ 5 ∧
    a.next_questions.length ≤ 3 ∧
    (∀ x ∈ a.actions_now, x ≠ "") ∧ (∀ x ∈ a.watch_out_for, x ≠ "") ∧
    (∀ x ∈ a.next_questions, x ≠ "") ∧
    3 ≤ a.headline.length ∧ a.headline.length ≤ 120 ∧
    a.rationale_brief.length ≤ 600 ∧
    a.safety_notes = inp.safety_notes := by
  unfold safeParseAdvisory at h
  cases hc : parseConfidence inp.confidence with
  | none => rw [hc] at h; cases h
  | some conf =>
    rw [hc] at h
    dsimp only at h
    by_cases hcond : (3 ≤ inp.headline.length && inp.headline.length ≤ 120 &&
        inp.rationale_brief.length ≤ 600 && allowedStages.contains inp.stage) = true
    · rw [if_pos hcond] at h
      have ha := Option.some.inj h
      subst ha
      simp only [Bool.and_eq_true, decide_eq_true_eq] at hcond
      exact ⟨cleanList_length_le 7 _, cleanList_length_le 5 _, cleanList_length_le 3 _,
        cleanList_mem_ne 7 _, cleanList_mem_ne 5 _, cleanList_mem_ne 3 _,
        hcond.1.1.1, hcond.1.1.2, hcond.1.2, rfl⟩
    · rw [if_neg hcond] at h
      cases h

/-- C6 counterexample: an Advisory is successfully constructed with seven
safety notes, exceeding the claimed cap of six. -/
theorem C6_safety_notes_uncapped_counterexample :
    safeParseAdvisory c6Input = some c6Output ∧
    c6Output.safety_notes.length = 7 :=
  ⟨by decide, by decide⟩

/-- Witness for C6 at a concrete well-formed input whose blank entries
are dropped. -/
theorem C6_advisory_construction_bounds_witness :
    safeParseAdvisory c6GoodInput = some c6GoodOutput ∧
    c6GoodOutput.actions_now.length ≤ 7 ∧
    c6GoodOutput.watch_out_for.length ≤ 5 ∧
    c6GoodOutput.next_questions.length ≤ 3 ∧
    (("Check soil moisture") ∈ c6GoodOutput.actions_now) ∧
    ("Check soil moisture" : String) ≠ "" ∧
    3 ≤ c6GoodOutput.headline.length ∧
    c6GoodOutput.headline.length ≤ 120 ∧
    c6GoodOutput.rationale_brief.length ≤ 600 :=
  ⟨by decide,
   (C6_advisory_construction_bounds c6GoodInput c6GoodOutput (by decide)).1,
   (C6_advisory_construction_bounds c6GoodInput c6GoodOutput (by decide)).2.1,
   (C6_advisory_construction_bounds c6GoodInput c6GoodOutput (by decide)).2.2.1,
   by decide,
   (C6_advisory_construction_bounds c6GoodInput c6GoodOutput (by decide)).2.2.2.1
     ("Check soil moisture") (by decide),
   (C6_advisory_construction_bounds c6GoodInput c6GoodOutput (by decide)).2.2.2.2.2.2.1,
   (C6_advisory_construction_bounds c6GoodInput c6GoodOutput (by decide)).2.2.2.2.2.2.2.1,
   (C6_advisory_construction_bounds c6GoodInput c6GoodOutput (by decide)).2.2.2.2.2.2.2.2.1⟩

/-! ### C7 -/

/-- C7 (amended): sanitizing twice never changes any field except the
safety notes; repeated sanitization is a genuine no-op exactly when the
guard is not escalating or the first sanitization already filled the
six-entry safety-note cap — otherwise the disclaimer and reasons are
appended again. -/
theorem C7_sanitize_idempotent_modulo_notes (a : Advisory) (g : GuardrailResult) :
    ((sanitizeAdvisory (sanitizeAdvisory a g) g).headline =
        (sanitizeAdvisory a g).headline ∧
      (sanitizeAdvisory (sanitizeAdvisory a g) g).stage =
        (sanitizeAdvisory a g).stage ∧
      (sanitizeAdvisory (sanitizeAdvisory a g) g).actions_now =
        (sanitizeAdvisory a g).actions_now ∧
      (sanitizeAdvisory (sanitizeAdvisory a g) g).watch_out_for =
        (sanitizeAdvisory a g).watch_out_for ∧
      (sanitizeAdvisory (sanitizeAdvisory a g) g).next_questions =
        (sanitizeAdvisory a g).next_questions ∧
      (sanitizeAdvisory (sanitizeAdvisory a g) g).rationale_brief =
        (sanitizeAdvisory a g).rationale_brief ∧
      (sanitizeAdvisory (sanitizeAdvisory a g) g).confidence =
        (sanitizeAdvisory a g).confidence ∧
      (sanitizeAdvisory (sanitizeAdvisory a g) g).needs_human_review =
        (sanitizeAdvisory a g).needs_human_review) ∧
    (g.needs_human_review = false →
      sanitizeAdvisory (sanitizeAdvisory a g) g = sanitizeAdvisory a g) ∧
    ((sanitizeAdvisory a g).safety_notes.length = 6 →
      sanitizeAdvisory (sanitizeAdvisory a g) g = sanitizeAdvisory a g) := by
  rcases Bool.eq_false_or_eq_true g.needs_human_review with hg | hg
  swap
  · rw [sanitize_eq_of_not_needs a g hg, sanitize_eq_of_not_needs a g hg]
    exact ⟨⟨rfl, rfl, rfl, rfl, rfl, rfl, rfl, rfl⟩, fun _ => rfl, fun _ => rfl⟩
  · have hAct : (sanitizeAdvisory (sanitizeAdvisory a g) g).actions_now =
        (sanitizeAdvisory a g).actions_now := by
      rw [sanitize_actions_eq _ g hg]
      have hfilter : (sanitizeAdvisory a g).actions_now.filter (fun l => !isRiskyLine l) =
          (sanitizeAdvisory a g).actions_now :=
        List.filter_eq_self.mpr (fun x hx => by
          simp [sanitize_actions_not_risky a g hg x hx])
      rw [hfilter]
      have hie : (sanitizeAdvisory a g).actions_now.isEmpty = false := by
        cases hE : (sanitizeAdvisory a g).actions_now with
        | nil => exact absurd hE (sanitize_actions_ne_nil a g hg)
        | cons x xs => rfl
      rw [hie]
      simp only [Bool.false_eq_true, if_false]
      rw [sanitize_actions_eq a g hg, List.take_take, Nat.min_self]
    refine ⟨⟨sanitize_headline _ g, sanitize_stage _ g, hAct, sanitize_watch _ g,
      sanitize_questions _ g, sanitize_rationale _ g, ?_, ?_⟩, ?_, ?_⟩
    · rw [sanitize_conf_low _ g hg, sanitize_conf_low a g hg]
    · rw [sanitize_needs_true _ g hg, sanitize_needs_true a g hg]
    · intro hgf
      rw [hgf] at hg
      cases hg
    · intro h6
      have hN : (sanitizeAdvisory (sanitizeAdvisory a g) g).safety_notes =
          (sanitizeAdvisory a g).safety_notes := by
        rw [sanitize_notes_eq _ g hg, List.append_assoc, ← h6, List.take_left]
      apply Advisory.ext (sanitize_headline _ g) (sanitize_stage _ g) hAct
        (sanitize_watch _ g) (sanitize_questions _ g) (sanitize_rationale _ g)
        ?_ hN ?_
      · rw [sanitize_conf_low _ g hg, sanitize_conf_low a g hg]
      · rw [sanitize_needs_true _ g hg, sanitize_needs_true a g hg]

/-- C7 counterexample: sanitizing an already-sanitized Advisory appends
the disclaimer and the guard reasons to the safety notes a second time,
so sanitize is not idempotent. -/
theorem C7_sanitize_not_idempotent_counterexample :
    sanitizeAdvisory (sanitizeAdvisory c7Adv c7Guard) c7Guard ≠
      sanitizeAdvisory c7Adv c7Guard := by decide

/-- Witness for C7: full idempotence at a non-escalating guard and at an
advisory whose sanitized safety notes already hold six entries. -/
theorem C7_sanitize_idempotent_modulo_notes_witness :
    c7BenignGuard.needs_human_review = false ∧
    sanitizeAdvisory (sanitizeAdvisory c7Adv c7BenignGuard) c7BenignGuard =
      sanitizeAdvisory c7Adv c7BenignGuard ∧
    (sanitizeAdvisory c7NotesAdv c7Guard).safety_notes.length = 6 ∧
    sanitizeAdvisory (sanitizeAdvisory c7NotesAdv c7Guard) c7Guard =
      sanitizeAdvisory c7NotesAdv c7Guard :=
  ⟨by decide,
   (C7_sanitize_idempotent_modulo_notes c7Adv c7BenignGuard).2.1 (by decide),
   by decide,
   (C7_sanitize_idempotent_modulo_notes c7NotesAdv c7Guard).2.2 (by decide)⟩

/-! ### C8 -/

/-- C8 (amended): with truthy coordinates the weather node keeps the
prior snapshot on a fetch failure and replaces it wholesale on success;
when coordinates remain absent after a failed geocode attempt, the node
sets the snapshot to none, clearing any prior one, and continues. -/
theorem C8_weather_node_snapshot (st : GraphState)
    (geo : Except Unit (Option ℚ × Option ℚ × Option String))
    (wx : Except Unit WeatherSnapshot) :
    ((truthyRat st.context.lat && truthyRat st.context.lon) = true →
      (weatherNode st geo (Except.error ())).weather = st.weather ∧
      (∀ snap, (weatherNode st geo (Except.ok snap)).weather = some snap)) ∧
    ((truthyRat st.context.lat && truthyRat st.context.lon) = false →
      (weatherNode st (Except.error ()) wx).weather = none) := by
  constructor
  · intro hc
    refine ⟨?_, fun snap => ?_⟩ <;> simp [weatherNode, hc]
  · intro hc
    cases hl : truthyOptStr st.context.location_text <;>
      cases wx <;> simp [weatherNode, hc, hl]

/-- C8 counterexample: a state holding a prior snapshot whose geocoding
fails has its snapshot cleared rather than kept. -/
theorem C8_geocode_failure_clears_snapshot_counterexample :
    c8GeoState.weather = some c8PrevSnap ∧
    (weatherNode c8GeoState (Except.error ()) (Except.error ())).weather = none ∧
    (weatherNode c8GeoState (Except.error ()) (Except.error ())).weather ≠
      c8GeoState.weather :=
  ⟨rfl, by decide, by decide⟩

/-- Witness for C8 at concrete states with and without truthy
coordinates. -/
theorem C8_weather_node_snapshot_witness :
    (truthyRat c8CoordState.context.lat && truthyRat c8CoordState.context.lon) = true ∧
    (weatherNode c8CoordState (Except.error ()) (Except.error ())).weather =
      c8CoordState.weather ∧
    (weatherNode c8CoordState (Except.error ()) (Except.ok c8NewSnap)).weather =
      some c8NewSnap ∧
    (truthyRat c8GeoState.context.lat && truthyRat c8GeoState.context.lon) = false ∧
    (weatherNode c8GeoState (Except.error ()) (Except.error ())).weather = none :=
  ⟨by decide,
   ((C8_weather_node_snapshot c8CoordState (Except.error ()) (Except.error ())).1
     (by decide)).1,
   ((C8_weather_node_snapshot c8CoordState (Except.error ()) (Except.ok c8NewSnap)).1
     (by decide)).2 c8NewSnap,
   by decide,
   (C8_weather_node_snapshot c8GeoState (Except.error ()) (Except.error ())).2
     (by decide)⟩

/-! ### C9 -/

theorem compactMessages_le (st : GraphState) :
    (compactMessages st).messages.length ≤ 16 := by
  unfold compactMessages
  split
  · next h =>
    simp only [List.length_drop]
    omega
  · next h => omega

/-- C9 (amended): the user-message append of runTurn, the ask reply and
the advice success reply all leave at most 16 messages; the
synthesis-failure fallback appends without truncating and can therefore
leave 17. -/
theorem C9_message_truncation (st : GraphState) (txt : String) (adv : Advisory) :
    (runTurnStart st txt).messages.length ≤ 16 ∧
    (askNode st).messages.length ≤ 16 ∧
    (adviceNodeSuccess st adv).messages.length ≤ 16 ∧
    (st.messages.length ≤ 16 → (adviceNodeFallback st).messages.length ≤ 17) := by
  refine ⟨compactMessages_le _, ?_, ?_, ?_⟩
  · show (compactMessages (addAssistantMsg st (askMessageForMissing st))).messages.length ≤ 16
    exact compactMessages_le _
  · show (compactMessages (addAssistantMsg st
      (summaryMsg (sanitizeAdvisory adv (guardrails adv st))))).messages.length ≤ 16
    exact compactMessages_le _
  · intro h
    simp only [adviceNodeFallback, addAssistantMsg, List.length_append,
      List.length_singleton]
    omega

/-- C9 counterexample: starting from a full 16-entry history, the advice
synthesis-failure fallback leaves 17 messages, breaking the claimed cap. -/
theorem C9_fallback_exceeds_cap_counterexample :
    ¬ ((adviceNodeFallback c9FullState).messages.length ≤ 16) := by decide

/-- Witness for C9 at a small concrete state. -/
theorem C9_message_truncation_witness :
    (runTurnStart c9SmallState ("hello")).messages.length ≤ 16 ∧
    (askNode c9SmallState).messages.length ≤ 16 ∧
    (adviceNodeSuccess c9SmallState c9Adv).messages.length ≤ 16 ∧
    c9SmallState.messages.length ≤ 16 ∧
    (adviceNodeFallback c9SmallState).messages.length ≤ 17 :=
  ⟨(C9_message_truncation c9SmallState ("hello") c9Adv).1,
   (C9_message_truncation c9SmallState ("hello") c9Adv).2.1,
   (C9_message_truncation c9SmallState ("hello") c9Adv).2.2.1,
   by decide,
   (C9_message_truncation c9SmallState ("hello") c9Adv).2.2.2 (by decide)⟩

end CropAdvisor

